import Mathlib

/-!
Verification of the m8s environment-provisioning service.

The development shallowly embeds:
- the `env.PersistentVolumeClaim` constructor (source file of package `env`);
- the startup sequence of the API binary: sequential addon bootstrap
  (`main`, addons traefik / ssh-server / black-death) and the transport
  credential selection (`cmdServer.run` and `getLetsEncrypt` in
  `cli/main.go`);
- the environment build/destroy orchestrator (the `server` package, which
  is not among the provided sources; those parts are modelled from the
  specification and are marked as such in their doc comments).

Machine integers do not occur on the verified paths; strings are Lean
strings, Kubernetes objects are records, and external fallible calls
(certificate loading, quantity parsing) are abstracted as oracles or
Option-returning functions.
-/

/-! ## Decimal rendering and parsing

Expiry metadata is stamped onto workloads as string label values; the
garbage-collector addon must be able to parse them back.  We model the
rendering of a timestamp as little-endian decimal digits (via
`Nat.digits`, written most-significant first) and give an executable
parser, proving the roundtrip. -/

/-- The ASCII character of a single decimal digit. -/
def digitChar (d : Nat) : Char :=
  Char.ofNat (48 + d)

/-- Render a natural number in decimal, most significant digit first.
The fuel argument bounds the recursion depth; `n` itself is always
enough fuel. -/
def renderNatAux : Nat → Nat → List Char
  | 0, _ => []
  | _ + 1, 0 => []
  | fuel + 1, n + 1 =>
    renderNatAux fuel ((n + 1) / 10) ++ [digitChar ((n + 1) % 10)]

/-- Render a natural number as a decimal string. -/
def renderNat (n : Nat) : String :=
  if n = 0 then "0" else String.mk (renderNatAux n n)

/-- Numeric value of an ASCII digit character, `none` on other input. -/
def digitVal (c : Char) : Option Nat :=
  if 48 ≤ c.toNat ∧ c.toNat ≤ 57 then some (c.toNat - 48) else none

/-- Parse a run of decimal digit characters, accumulating left to right. -/
def parseNatChars : List Char → Nat → Option Nat
  | [], acc => some acc
  | c :: cs, acc =>
    match digitVal c with
    | none => none
    | some d => parseNatChars cs (10 * acc + d)

/-- Parse a non-empty decimal string. -/
def parseNatStr (s : String) : Option Nat :=
  match s.data with
  | [] => none
  | _ => parseNatChars s.data 0

/-- Seconds denoted by a duration unit character. -/
def unitSeconds (c : Char) : Option Nat :=
  if c = 's' then some 1
  else if c = 'm' then some 60
  else if c = 'h' then some 3600
  else none

/-- Parse a duration of the shape `<digits><unit>` (for example, the
spec's `24h`) into seconds. -/
def parseDuration (s : String) : Option Nat :=
  match s.data.reverse with
  | [] => none
  | u :: rest =>
    match unitSeconds u, rest with
    | _, [] => none
    | none, _ => none
    | some mult, ds =>
      (parseNatChars ds.reverse 0).map (fun n => n * mult)

/-! ## Kubernetes objects and the cache volume claim

Shallow embedding of the `env` package's `PersistentVolumeClaim`
constructor.  The `resource.MustParse` call of the Kubernetes client
library panics on a malformed quantity; it is modelled as an
Option-returning parser (`none` models the panic), a successfully parsed
quantity carrying its original string. -/

/-- A Kubernetes resource quantity, carrying the string it was parsed
from (mirroring how the client library keeps the original format). -/
structure Quantity where
  value : String
deriving DecidableEq, Repr

/-- Suffixes accepted by the simplified quantity grammar: none, binary
SI, or decimal SI. -/
def quantitySuffixes : List String :=
  ["", "Ki", "Mi", "Gi", "Ti", "Pi", "Ei", "k", "M", "G", "T", "P", "E"]

/-- Split a character list into its leading run of decimal digits and
the remainder. -/
def splitDigits : List Char → List Char × List Char
  | [] => ([], [])
  | c :: cs =>
    if 48 ≤ c.toNat ∧ c.toNat ≤ 57 then
      let p := splitDigits cs
      (c :: p.1, p.2)
    else ([], c :: cs)

/-- Models `resource.MustParse`: accepts a non-empty run of digits
followed by an allowed suffix, and returns a `Quantity` carrying the
input string; `none` models the library panic on malformed input. -/
def mustParseQuantity (s : String) : Option Quantity :=
  if (splitDigits s.data).1 ≠ [] ∧
      quantitySuffixes.contains (String.mk (splitDigits s.data).2) then
    some ⟨s⟩
  else none

namespace v1

/-- Kubernetes object metadata (the fields used by this service). -/
structure ObjectMeta where
  Namespace : String
  Name : String
  Annotations : List (String × String)
deriving DecidableEq, Repr

/-- Kubernetes volume access modes. -/
inductive PersistentVolumeAccessMode
  | ReadWriteOnce
  | ReadOnlyMany
  | ReadWriteMany
deriving DecidableEq, Repr

/-- The spec part of a volume claim: access modes and resource
requests (a list of resource-name / quantity pairs). -/
structure PersistentVolumeClaimSpec where
  AccessModes : List PersistentVolumeAccessMode
  Requests : List (String × Quantity)
deriving DecidableEq, Repr

/-- A Kubernetes persistent volume claim object. -/
structure PersistentVolumeClaim where
  objectMeta : ObjectMeta
  spec : PersistentVolumeClaimSpec
deriving DecidableEq, Repr

end v1

/-- Input for building the cache volume claim (package `env`). -/
structure PersistentVolumeClaimInput where
  Namespace : String
  Name : String
  Storage : String
deriving DecidableEq, Repr

/-- Look up the value of a key in a label/annotation list. -/
def lookupLabel (l : List (String × String)) (k : String) : Option String :=
  (l.find? (fun p => p.1 == k)).map Prod.snd

namespace env

/-- Embedding of `env.PersistentVolumeClaim`: builds the cache claim
object with the input's namespace/name, the storage-class `cache`
annotation, access mode `ReadWriteMany`, and a storage request parsed
from the input's `Storage` string (`none` when `resource.MustParse`
would panic). -/
def PersistentVolumeClaim (input : PersistentVolumeClaimInput) :
    Option v1.PersistentVolumeClaim :=
  (mustParseQuantity input.Storage).map fun q =>
    { objectMeta :=
        { Namespace := input.Namespace
          Name := input.Name
          Annotations :=
            [("volume.beta.kubernetes.io/storage-class", "cache"),
             ("author", "m8s")] }
      spec :=
        { AccessModes := [v1.PersistentVolumeAccessMode.ReadWriteMany]
          Requests := [("storage", q)] } }

end env

/-! ## Startup: transport credentials (`cmdServer.run`, `getLetsEncrypt`)

Shallow embedding of the credential phase of `cli/main.go`.  The
fallible library call `credentials.NewServerTLSFromFile` is an oracle
argument; `getLetsEncrypt` is embedded from the source. -/

/-- A transport credential for the RPC listener: either loaded from a
static certificate/key pair, or a TLS config whose certificate getter is
the autocert manager for the given domain/email/cache directory. -/
inductive TransportCredentials
  | fromFile (certFile keyFile : String)
  | fromAutocertTLS (domain email cacheDir : String)
deriving DecidableEq, Repr

/-- Embedding of `getLetsEncrypt` (cli/main.go): constructs the autocert
manager and returns `credentials.NewTLS(...)` together with a nil
error — the source has no failure path. -/
def getLetsEncrypt (domain email cache : String) :
    Except String TransportCredentials :=
  Except.ok (TransportCredentials.fromAutocertTLS domain email cache)

/-- The configuration fields of `cmdServer` read by the credential
phase. -/
structure ServerConfig where
  tlsCert : String
  tlsKey : String
  letsEncryptEmail : String
  letsEncryptDomain : String
  letsEncryptCache : String
deriving DecidableEq, Repr

/-- Outcome of the credential phase of `cmdServer.run`: either the
process panics before `grpcServer.Serve` is reached, or it starts
serving with the acquired credentials. -/
inductive RunOutcome
  | panicked (msg : String)
  | serving (creds : TransportCredentials)
deriving DecidableEq, Repr

/-- Map a credential-acquisition result to the run outcome: an error
panics, a credential proceeds to serving. -/
def credentialOutcome : Except String TransportCredentials → RunOutcome
  | Except.error e => RunOutcome.panicked e
  | Except.ok c => RunOutcome.serving c

/-- Embedding of `cmdServer.run` lines 100-118: load the user provided
certificates when both the cert and the key path are set, otherwise
fall back to Lets Encrypt; panic on a credential error, otherwise start
serving. -/
def runCredentialPhase (cfg : ServerConfig)
    (newServerTLSFromFile : String → String → Except String TransportCredentials) :
    RunOutcome :=
  if cfg.tlsCert ≠ "" ∧ cfg.tlsKey ≠ "" then
    match newServerTLSFromFile cfg.tlsCert cfg.tlsKey with
    | Except.error e => RunOutcome.panicked e
    | Except.ok c => RunOutcome.serving c
  else
    match getLetsEncrypt cfg.letsEncryptDomain cfg.letsEncryptEmail
        cfg.letsEncryptCache with
    | Except.error e => RunOutcome.panicked e
    | Except.ok c => RunOutcome.serving c

/-- The credential source selected by `cmdServer.run`: the static
loader's result when both TLS paths are non-empty, the Lets Encrypt
result otherwise. -/
def acquiredCredentials (cfg : ServerConfig)
    (newServerTLSFromFile : String → String → Except String TransportCredentials) :
    Except String TransportCredentials :=
  if cfg.tlsCert ≠ "" ∧ cfg.tlsKey ≠ "" then
    newServerTLSFromFile cfg.tlsCert cfg.tlsKey
  else
    getLetsEncrypt cfg.letsEncryptDomain cfg.letsEncryptEmail
      cfg.letsEncryptCache

/-! ## Startup: addon bootstrap (`main` of the API binary)

Shallow embedding of `main` lines 70-89: the three addons are installed
sequentially and any returned error panics the process before the RPC
server is created. -/

/-- The three cluster-level singleton addons. -/
inductive Addon
  | traefik
  | sshServer
  | blackDeath
deriving DecidableEq, Repr

/-- The declaration order of the addon installs in `main`:
traefik (ingress), ssh-server (remote shell), black-death (garbage
collector). -/
def addonOrder : List Addon :=
  [Addon.traefik, Addon.sshServer, Addon.blackDeath]

/-- Outcome of one addon-creation call against the cluster API. -/
inductive AddonOutcome
  | created
  | alreadyExists
  | apiError (msg : String)
deriving DecidableEq, Repr

/-- Modelled from the spec: the `addons` package (`CreateTraefik`,
`CreateSSHServer`, `CreateBlackDeath`) is not among the provided
sources.  Per spec §4.1, an already-present addon is left untouched and
not reported as an error; any other cluster-API failure is returned to
`main` as an error. -/
def addonCallError : AddonOutcome → Option String
  | AddonOutcome.created => none
  | AddonOutcome.alreadyExists => none
  | AddonOutcome.apiError m => some m

/-- Result of the addon bootstrap: `panicked` aborts the process before
the RPC server exists; `booted` proceeds to `Booting API`. -/
inductive BootResult
  | panicked (msg : String)
  | booted
deriving DecidableEq, Repr

/-- The creation calls attempted by the bootstrap, in order, and its
result. -/
structure BootTrace where
  attempted : List Addon
  result : BootResult
deriving DecidableEq, Repr

/-- Embedding of `main` lines 70-89: install traefik, then ssh-server,
then black-death, sequentially; a returned error panics immediately.
`r` gives the outcome of each creation call. -/
def bootstrapAddons (r : Addon → AddonOutcome) : BootTrace :=
  match addonCallError (r Addon.traefik) with
  | some m => ⟨[Addon.traefik], BootResult.panicked m⟩
  | none =>
    match addonCallError (r Addon.sshServer) with
    | some m => ⟨[Addon.traefik, Addon.sshServer], BootResult.panicked m⟩
    | none =>
      match addonCallError (r Addon.blackDeath) with
      | some m => ⟨addonOrder, BootResult.panicked m⟩
      | none => ⟨addonOrder, BootResult.booted⟩

/-! ## Environment build orchestrator

The `server` package implementing the Build/Status/Destroy RPCs is not
among the provided sources; the definitions below are modelled from the
specification (§4.4, §4.5, §7) and say so in their doc comments. -/

/-- Modelled from the spec: the Environment status state machine of
§4.4. -/
inductive EnvStatus
  | Requested
  | Provisioning
  | Ready
  | Failed
  | Destroying
  | Destroyed
deriving DecidableEq, Repr

/-- Terminal statuses: only `Destroyed` (spec §4.4). -/
def EnvStatus.isTerminal : EnvStatus → Bool
  | EnvStatus.Destroyed => true
  | _ => false

/-- Modelled from the spec: a cluster workload record carrying its
expiry-metadata labels. -/
structure Workload where
  name : String
  image : String
  labels : List (String × String)
deriving DecidableEq, Repr

/-- Modelled from the spec: the cluster resources this service touches —
workloads, routes and secrets by name, and the shared cache claim. -/
structure ClusterState where
  workloads : List Workload
  routes : List String
  secrets : List String
  cacheClaim : Option v1.PersistentVolumeClaim
deriving DecidableEq, Repr

/-- Modelled from the spec: an Environment record tracked by the
orchestrator. -/
structure Environment where
  identity : String
  ttl : String
  status : EnvStatus
deriving DecidableEq, Repr

/-- Modelled from the spec: orchestrator state — environments keyed by
identity, plus the cluster resource store. -/
structure ServerState where
  envs : List (String × Environment)
  cluster : ClusterState
deriving DecidableEq, Repr

/-- A Build RPC request (spec §4.4). -/
structure BuildRequest where
  identity : String
  image : String
  registryCredential : String
  ttl : String
deriving DecidableEq, Repr

/-- The provisioning step at which a cluster-API failure is injected
(`none` means every step succeeds). -/
inductive BuildStep
  | secretStep
  | workloadStep
  | routeStep
deriving DecidableEq, Repr

/-- Look up the environment tracked for an identity. -/
def lookupEnv (st : ServerState) (id : String) : Option Environment :=
  (st.envs.find? (fun p => p.1 == id)).map Prod.snd

/-- The expiry-metadata labels stamped on every created workload
(spec §4.5): createdAt, ttl and owner. -/
def expiryLabels (identity ttl : String) (now : Nat) : List (String × String) :=
  [("createdAt", renderNat now), ("ttl", ttl), ("owner", identity)]

/-- Create the registry-credential secret for an identity. -/
def createSecret (cl : ClusterState) (id : String) : ClusterState :=
  { cl with secrets := id :: cl.secrets }

/-- Create the primary workload, stamped with expiry metadata. -/
def createWorkload (cl : ClusterState) (req : BuildRequest) (now : Nat) :
    ClusterState :=
  { cl with workloads :=
      ⟨req.identity, req.image, expiryLabels req.identity req.ttl now⟩
        :: cl.workloads }

/-- Create the network route for an identity. -/
def createRoute (cl : ClusterState) (id : String) : ClusterState :=
  { cl with routes := id :: cl.routes }

/-- Record an environment with the given status, over a new cluster
state. -/
def setEnv (st : ServerState) (id ttl : String) (s : EnvStatus)
    (cl : ClusterState) : ServerState :=
  { envs := (id, ⟨id, ttl, s⟩) :: st.envs, cluster := cl }

/-- Modelled from the spec: fresh provisioning composes, in order, the
registry-credential secret, the primary workload (stamped with expiry
metadata `createdAt=now, ttl=requested, owner=identity`) and the network
route; a failing step leaves earlier resources in place (no rollback)
and reports `Failed`, a full pass reports `Ready` (spec §4.4). -/
def provision (st : ServerState) (req : BuildRequest) (now : Nat)
    (fail : Option BuildStep) : EnvStatus × ServerState :=
  match fail with
  | some BuildStep.secretStep =>
    (EnvStatus.Failed,
      setEnv st req.identity req.ttl EnvStatus.Failed st.cluster)
  | some BuildStep.workloadStep =>
    (EnvStatus.Failed,
      setEnv st req.identity req.ttl EnvStatus.Failed
        (createSecret st.cluster req.identity))
  | some BuildStep.routeStep =>
    (EnvStatus.Failed,
      setEnv st req.identity req.ttl EnvStatus.Failed
        (createWorkload (createSecret st.cluster req.identity) req now))
  | none =>
    (EnvStatus.Ready,
      setEnv st req.identity req.ttl EnvStatus.Ready
        (createRoute
          (createWorkload (createSecret st.cluster req.identity) req now)
          req.identity))

/-- Modelled from the spec: the Build RPC (§4.4).  When an active
(non-terminal) Environment already exists for the identity its status is
returned and nothing is created; otherwise the environment is
provisioned. -/
def Build (st : ServerState) (req : BuildRequest) (now : Nat)
    (fail : Option BuildStep) : EnvStatus × ServerState :=
  match lookupEnv st req.identity with
  | some env =>
    if env.status.isTerminal then provision st req now fail
    else (env.status, st)
  | none => provision st req now fail

/-- The result of the Destroy RPC. -/
inductive DestroyResult
  | Destroyed
  | NotFound
deriving DecidableEq, Repr

/-- Modelled from the spec: the Destroy RPC (§4.4) — deletes the
identity's workload, route and secret (never the cache claim) and marks
the environment `Destroyed`; an unknown or already-destroyed identity
yields `NotFound` as a normal result. -/
def Destroy (st : ServerState) (id : String) : DestroyResult × ServerState :=
  match lookupEnv st id with
  | some env =>
    if env.status.isTerminal then (DestroyResult.NotFound, st)
    else
      (DestroyResult.Destroyed,
        { envs := (id, ⟨id, env.ttl, EnvStatus.Destroyed⟩) :: st.envs
          cluster :=
            { workloads := st.cluster.workloads.filter (fun w => !(w.name == id))
              routes := st.cluster.routes.filter (fun r => !(r == id))
              secrets := st.cluster.secrets.filter (fun s => !(s == id))
              cacheClaim := st.cluster.cacheClaim } })
  | none => (DestroyResult.NotFound, st)

/-- A state-affecting operation of the RPC surface. -/
inductive Op
  | build (req : BuildRequest) (now : Nat) (fail : Option BuildStep)
  | destroy (id : String)

/-- Apply one operation to the orchestrator state. -/
def applyOp (st : ServerState) : Op → ServerState
  | Op.build req now fail => (Build st req now fail).2
  | Op.destroy id => (Destroy st id).2

/-- Run a sequence of operations. -/
def runOps (st : ServerState) : List Op → ServerState
  | [] => st
  | op :: ops => runOps (applyOp st op) ops

theorem digitVal_digitChar (d : Nat) (hd : d < 10) :
    digitVal (digitChar d) = some d := by
  interval_cases d <;> decide

theorem parseNatChars_map_digitChar (l : List Nat) (h : ∀ d ∈ l, d < 10) :
    ∀ a, parseNatChars (l.map digitChar) a
      = some (l.foldl (fun acc d => 10 * acc + d) a) := by
  induction l with
  | nil => intro a; rfl
  | cons x xs ih =>
    intro a
    have hx : x < 10 := h x (List.mem_cons_self x xs)
    simp only [List.map_cons, parseNatChars, digitVal_digitChar x hx]
    exact ih (fun d hmem => h d (List.mem_cons_of_mem x hmem)) _

theorem foldl_reverse_ofDigits (l : List Nat) :
    ∀ a, (l.reverse).foldl (fun acc d => 10 * acc + d) a
      = a * 10 ^ l.length + Nat.ofDigits 10 l := by
  induction l with
  | nil => intro a; simp [Nat.ofDigits_nil]
  | cons x xs ih =>
    intro a
    rw [List.reverse_cons, List.foldl_append, ih a]
    simp only [List.foldl, Nat.ofDigits_cons, List.length_cons]
    push_cast [pow_succ]
    ring

theorem parseNatStr_mk_cons (c : Char) (cs : List Char) :
    parseNatStr (String.mk (c :: cs)) = parseNatChars (c :: cs) 0 := rfl

theorem renderNatAux_eq_digits (fuel : Nat) :
    ∀ n, n ≤ fuel →
      renderNatAux fuel n = ((Nat.digits 10 n).reverse).map digitChar := by
  induction fuel with
  | zero =>
    intro n hn
    have : n = 0 := Nat.le_zero.mp hn
    subst this
    simp [renderNatAux]
  | succ f ih =>
    intro n hn
    cases n with
    | zero => simp [renderNatAux]
    | succ m =>
      have hdiv : (m + 1) / 10 ≤ f := by
        have h1 : (m + 1) / 10 < m + 1 :=
          Nat.div_lt_self (Nat.succ_pos m) (by decide)
        omega
      rw [renderNatAux, ih ((m + 1) / 10) hdiv,
        Nat.digits_def' (by decide : 1 < 10) (Nat.succ_pos m)]
      simp [List.reverse_cons]

theorem parse_renderNat (n : Nat) : parseNatStr (renderNat n) = some n := by
  by_cases h : n = 0
  · subst h; decide
  · have hrender : renderNat n = String.mk (((Nat.digits 10 n).reverse).map digitChar) := by
      rw [renderNat, if_neg h, renderNatAux_eq_digits n n (Nat.le_refl n)]
    have hne : Nat.digits 10 n ≠ [] := Nat.digits_ne_nil_iff_ne_zero.mpr h
    have hlt : ∀ d ∈ (Nat.digits 10 n).reverse, d < 10 := by
      intro d hdmem
      exact Nat.digits_lt_base (by decide) (List.mem_reverse.mp hdmem)
    have hparse := parseNatChars_map_digitChar ((Nat.digits 10 n).reverse) hlt 0
    have hfold := foldl_reverse_ofDigits (Nat.digits 10 n) 0
    rw [hrender]
    cases hcase : ((Nat.digits 10 n).reverse).map digitChar with
    | nil =>
      exfalso
      have hrev : (Nat.digits 10 n).reverse = [] := by
        cases hr : (Nat.digits 10 n).reverse with
        | nil => rfl
        | cons y ys => rw [hr] at hcase; simp at hcase
      exact hne (by simpa using congrArg List.reverse hrev)
    | cons c cs =>
      rw [parseNatStr_mk_cons, ← hcase, hparse, hfold, Nat.ofDigits_digits]
      simp

/-- C8: every successfully constructed cache volume claim has access
modes exactly `[ReadWriteMany]`, a storage request equal to the input's
`Storage` field, the input's namespace and name, and the storage-class
annotation `cache`. -/
theorem cache_claim_shape (input : PersistentVolumeClaimInput)
    (pvc : v1.PersistentVolumeClaim)
    (h : env.PersistentVolumeClaim input = some pvc) :
    pvc.spec.AccessModes = [v1.PersistentVolumeAccessMode.ReadWriteMany] ∧
    pvc.spec.Requests = [("storage", Quantity.mk input.Storage)] ∧
    pvc.objectMeta.Namespace = input.Namespace ∧
    pvc.objectMeta.Name = input.Name ∧
    lookupLabel pvc.objectMeta.Annotations
      "volume.beta.kubernetes.io/storage-class" = some "cache" := by
  unfold env.PersistentVolumeClaim at h
  unfold mustParseQuantity at h
  by_cases hc : (splitDigits input.Storage.data).1 ≠ [] ∧
      quantitySuffixes.contains (String.mk (splitDigits input.Storage.data).2)
  · rw [if_pos hc] at h
    simp only [Option.map_some', Option.some.injEq] at h
    subst h
    refine ⟨rfl, rfl, rfl, rfl, rfl⟩
  · rw [if_neg hc] at h
    simp at h

/-- Witness for C8 at the default cache size `100Gi`. -/
theorem cache_claim_shape_witness :
    (env.PersistentVolumeClaim ⟨"default", "cache", "100Gi"⟩).isSome = true ∧
    ∀ pvc, env.PersistentVolumeClaim ⟨"default", "cache", "100Gi"⟩ = some pvc →
      pvc.spec.Requests = [("storage", Quantity.mk "100Gi")] :=
  ⟨by decide, fun pvc h =>
    (cache_claim_shape ⟨"default", "cache", "100Gi"⟩ pvc h).2.1⟩

theorem addonCallError_eq_none (o : AddonOutcome) :
    addonCallError o = none ↔ ∀ m, o ≠ AddonOutcome.apiError m := by
  cases o <;> simp [addonCallError]

/-- C5: the addon bootstrap runs sequentially in declaration order — the
attempted creations always form an initial segment of
traefik, ssh-server, black-death beginning with traefik, and a later
addon is attempted only after every earlier creation call returned
without error. -/
theorem addon_bootstrap_order (r : Addon → AddonOutcome) :
    (∃ k, 1 ≤ k ∧ k ≤ 3 ∧
      (bootstrapAddons r).attempted = addonOrder.take k) ∧
    (Addon.sshServer ∈ (bootstrapAddons r).attempted →
      addonCallError (r Addon.traefik) = none) ∧
    (Addon.blackDeath ∈ (bootstrapAddons r).attempted →
      addonCallError (r Addon.traefik) = none ∧
      addonCallError (r Addon.sshServer) = none) := by
  cases h1 : addonCallError (r Addon.traefik) with
  | some m =>
    refine ⟨⟨1, by omega, by omega, by simp [bootstrapAddons, h1, addonOrder]⟩, ?_, ?_⟩
    all_goals intro hmem; simp [bootstrapAddons, h1] at hmem
  | none =>
    cases h2 : addonCallError (r Addon.sshServer) with
    | some m =>
      refine ⟨⟨2, by omega, by omega, by simp [bootstrapAddons, h1, h2, addonOrder]⟩,
        fun _ => rfl, ?_⟩
      intro hmem
      simp [bootstrapAddons, h1, h2] at hmem
    | none =>
      cases h3 : addonCallError (r Addon.blackDeath) with
      | some m =>
        exact ⟨⟨3, by omega, by omega,
          by simp [bootstrapAddons, h1, h2, h3, addonOrder]⟩,
          fun _ => rfl, fun _ => ⟨rfl, rfl⟩⟩
      | none =>
        exact ⟨⟨3, by omega, by omega,
          by simp [bootstrapAddons, h1, h2, h3, addonOrder]⟩,
          fun _ => rfl, fun _ => ⟨rfl, rfl⟩⟩

/-- C6: the bootstrap reaches the serving phase iff no addon-creation
call fails with a cluster-API error (already-exists is swallowed by the
creation calls and is not an error); any such error makes the process
panic, so the RPC server never begins serving. -/
theorem addon_error_fatal (r : Addon → AddonOutcome) :
    ((bootstrapAddons r).result = BootResult.booted ↔
      ∀ a m, r a ≠ AddonOutcome.apiError m) ∧
    ∀ a m, r a = AddonOutcome.apiError m →
      ∃ e, (bootstrapAddons r).result = BootResult.panicked e := by
  cases h1 : addonCallError (r Addon.traefik) with
  | some m1 =>
    constructor
    · constructor
      · intro hb; simp [bootstrapAddons, h1] at hb
      · intro hall
        exact absurd ((addonCallError_eq_none _).mpr (hall Addon.traefik)) (by simp [h1])
    · intro a m hr
      exact ⟨m1, by simp [bootstrapAddons, h1]⟩
  | none =>
    cases h2 : addonCallError (r Addon.sshServer) with
    | some m2 =>
      constructor
      · constructor
        · intro hb; simp [bootstrapAddons, h1, h2] at hb
        · intro hall
          exact absurd ((addonCallError_eq_none _).mpr (hall Addon.sshServer)) (by simp [h2])
      · intro a m hr
        exact ⟨m2, by simp [bootstrapAddons, h1, h2]⟩
    | none =>
      cases h3 : addonCallError (r Addon.blackDeath) with
      | some m3 =>
        constructor
        · constructor
          · intro hb; simp [bootstrapAddons, h1, h2, h3] at hb
          · intro hall
            exact absurd ((addonCallError_eq_none _).mpr (hall Addon.blackDeath)) (by simp [h3])
        · intro a m hr
          exact ⟨m3, by simp [bootstrapAddons, h1, h2, h3]⟩
      | none =>
        constructor
        · constructor
          · intro _ a m
            cases a
            · exact (addonCallError_eq_none _).mp h1 m
            · exact (addonCallError_eq_none _).mp h2 m
            · exact (addonCallError_eq_none _).mp h3 m
          · intro _; simp [bootstrapAddons, h1, h2, h3]
        · intro a m hr
          exfalso
          cases a
          · exact (addonCallError_eq_none _).mp h1 m hr
          · exact (addonCallError_eq_none _).mp h2 m hr
          · exact (addonCallError_eq_none _).mp h3 m hr

/-- C7: failure to obtain a transport credential is fatal — when the
selected credential source returns an error, `run` panics with it and
the gRPC server never starts serving. -/
theorem credential_failure_fatal (cfg : ServerConfig)
    (loader : String → String → Except String TransportCredentials)
    (e : String)
    (h : acquiredCredentials cfg loader = Except.error e) :
    runCredentialPhase cfg loader = RunOutcome.panicked e ∧
    ∀ c, runCredentialPhase cfg loader ≠ RunOutcome.serving c := by
  unfold acquiredCredentials at h
  unfold runCredentialPhase
  by_cases hc : cfg.tlsCert ≠ "" ∧ cfg.tlsKey ≠ ""
  · rw [if_pos hc] at h
    rw [if_pos hc, h]
    exact ⟨rfl, fun c hcon => by simp at hcon⟩
  · rw [if_neg hc] at h
    simp [getLetsEncrypt] at h

/-- Witness for C7: a static configuration whose certificate files fail
to load panics before serving. -/
theorem credential_failure_fatal_witness :
    acquiredCredentials ⟨"cert.pem", "key.pem", "", "", ""⟩
        (fun _ _ => Except.error "missing file") = Except.error "missing file" ∧
    runCredentialPhase ⟨"cert.pem", "key.pem", "", "", ""⟩
        (fun _ _ => Except.error "missing file")
      = RunOutcome.panicked "missing file" :=
  ⟨rfl,
    (credential_failure_fatal ⟨"cert.pem", "key.pem", "", "", ""⟩
      (fun _ _ => Except.error "missing file") "missing file" rfl).1⟩

/-- C9: the automated credential path never fails at startup —
`getLetsEncrypt` returns ok credentials for every domain, email and
cache-directory input, so whenever the static pair is not fully
configured, `run` reaches serving unconditionally. -/
theorem letsEncrypt_never_fails (domain email cache : String)
    (cfg : ServerConfig)
    (loader : String → String → Except String TransportCredentials)
    (hcfg : ¬(cfg.tlsCert ≠ "" ∧ cfg.tlsKey ≠ "")) :
    getLetsEncrypt domain email cache =
      Except.ok (TransportCredentials.fromAutocertTLS domain email cache) ∧
    runCredentialPhase cfg loader =
      RunOutcome.serving (TransportCredentials.fromAutocertTLS
        cfg.letsEncryptDomain cfg.letsEncryptEmail cfg.letsEncryptCache) := by
  refine ⟨rfl, ?_⟩
  unfold runCredentialPhase
  rw [if_neg hcfg]
  rfl

/-- Witness for C9 at an empty static configuration. -/
theorem letsEncrypt_never_fails_witness :
    runCredentialPhase ⟨"", "", "admin@previousnext.com.au", "m8s.pnx.com.au", "/tmp"⟩
        (fun _ _ => Except.error "unused")
      = RunOutcome.serving
          (TransportCredentials.fromAutocertTLS "m8s.pnx.com.au"
            "admin@previousnext.com.au" "/tmp") :=
  (letsEncrypt_never_fails "d" "e" "c"
    ⟨"", "", "admin@previousnext.com.au", "m8s.pnx.com.au", "/tmp"⟩
    (fun _ _ => Except.error "unused") (by simp)).2

/-- C10: the static credential variant is selected iff both the TLS
certificate path and the TLS key path are non-empty; with at most one of
the two set, the loader is never consulted and `run` silently serves
with the Lets Encrypt credentials instead of reporting a configuration
error. -/
theorem static_selection (cfg : ServerConfig)
    (loader : String → String → Except String TransportCredentials) :
    (cfg.tlsCert ≠ "" ∧ cfg.tlsKey ≠ "" →
      runCredentialPhase cfg loader
        = credentialOutcome (loader cfg.tlsCert cfg.tlsKey)) ∧
    (cfg.tlsCert = "" ∨ cfg.tlsKey = "" →
      (∀ loader2, runCredentialPhase cfg loader = runCredentialPhase cfg loader2) ∧
      runCredentialPhase cfg loader =
        RunOutcome.serving (TransportCredentials.fromAutocertTLS
          cfg.letsEncryptDomain cfg.letsEncryptEmail cfg.letsEncryptCache)) := by
  constructor
  · intro hc
    unfold runCredentialPhase
    rw [if_pos hc]
    cases loader cfg.tlsCert cfg.tlsKey <;> rfl
  · intro hone
    have hneg : ¬(cfg.tlsCert ≠ "" ∧ cfg.tlsKey ≠ "") := by
      intro hboth
      cases hone with
      | inl h => exact hboth.1 h
      | inr h => exact hboth.2 h
    constructor
    · intro loader2
      unfold runCredentialPhase
      rw [if_neg hneg, if_neg hneg]
    · unfold runCredentialPhase
      rw [if_neg hneg]
      rfl

/-- Witness for C10: with only a certificate path set (no key), the
loader error is ignored and serving proceeds on Lets Encrypt. -/
theorem static_selection_witness :
    runCredentialPhase ⟨"cert.pem", "", "e", "d", "/tmp"⟩
        (fun _ _ => Except.error "boom")
      = RunOutcome.serving (TransportCredentials.fromAutocertTLS "d" "e" "/tmp") :=
  ((static_selection ⟨"cert.pem", "", "e", "d", "/tmp"⟩
    (fun _ _ => Except.error "boom")).2 (Or.inr rfl)).2

theorem lookupEnv_cons_self (e : Environment) (rest : List (String × Environment))
    (cl : ClusterState) (id : String) :
    lookupEnv ⟨(id, e) :: rest, cl⟩ id = some e := by
  unfold lookupEnv
  simp

theorem destroy_terminal_notFound (st : ServerState) (id : String)
    (e : Environment) (hlook : lookupEnv st id = some e)
    (hterm : e.status.isTerminal = true) :
    Destroy st id = (DestroyResult.NotFound, st) := by
  unfold Destroy
  rw [hlook]
  simp [hterm]

/-- C1: a Build call against an identity that already has an active
(non-terminal) Environment returns the existing status, leaves the state
unchanged, and in particular creates no second workload. -/
theorem build_idempotent_active (st : ServerState) (req : BuildRequest)
    (now : Nat) (fail : Option BuildStep) (env : Environment)
    (hlook : lookupEnv st req.identity = some env)
    (hactive : env.status.isTerminal = false) :
    (Build st req now fail).1 = env.status ∧
    (Build st req now fail).2 = st ∧
    (Build st req now fail).2.cluster.workloads = st.cluster.workloads := by
  unfold Build
  rw [hlook]
  simp [hactive]

/-- Witness for C1: repeating Build while the environment is
Provisioning returns the in-progress status. -/
theorem build_idempotent_active_witness :
    EnvStatus.Provisioning.isTerminal = false ∧
    (Build ⟨[("pr-123", ⟨"pr-123", "24h", EnvStatus.Provisioning⟩)],
        ⟨[], [], [], none⟩⟩ ⟨"pr-123", "app:1.0", "cred", "24h"⟩ 7 none).1
      = EnvStatus.Provisioning :=
  ⟨rfl,
    (build_idempotent_active
      ⟨[("pr-123", ⟨"pr-123", "24h", EnvStatus.Provisioning⟩)], ⟨[], [], [], none⟩⟩
      ⟨"pr-123", "app:1.0", "cred", "24h"⟩ 7 none
      ⟨"pr-123", "24h", EnvStatus.Provisioning⟩ rfl rfl).1⟩

/-- C2: a Build that provisions a fresh environment to Ready stamps its
primary workload with present, parseable createdAt and ttl metadata, the
ttl being exactly the requested one. -/
theorem build_ready_metadata (st : ServerState) (req : BuildRequest)
    (now : Nat)
    (hfresh : lookupEnv st req.identity = none)
    (httl : (parseDuration req.ttl).isSome = true) :
    (Build st req now none).1 = EnvStatus.Ready ∧
    ∃ w, w ∈ (Build st req now none).2.cluster.workloads ∧
      w.name = req.identity ∧
      lookupLabel w.labels "createdAt" = some (renderNat now) ∧
      parseNatStr (renderNat now) = some now ∧
      lookupLabel w.labels "ttl" = some req.ttl ∧
      (parseDuration req.ttl).isSome = true := by
  have hbuild : Build st req now none = provision st req now none := by
    unfold Build
    rw [hfresh]
  rw [hbuild]
  refine ⟨rfl,
    ⟨req.identity, req.image, expiryLabels req.identity req.ttl now⟩,
    ?_, rfl, ?_, parse_renderNat now, ?_, httl⟩
  · simp [provision, setEnv, createRoute, createWorkload, createSecret]
  · simp [lookupLabel, expiryLabels]
  · simp [lookupLabel, expiryLabels]

/-- Witness for C2 at the end-to-end example (`pr-42`, ttl `24h`). -/
theorem build_ready_metadata_witness :
    lookupEnv ⟨[], ⟨[], [], [], none⟩⟩ "pr-42" = none ∧
    (parseDuration "24h").isSome = true ∧
    (Build ⟨[], ⟨[], [], [], none⟩⟩ ⟨"pr-42", "app:1.0", "cred", "24h"⟩ 7 none).1
      = EnvStatus.Ready :=
  ⟨rfl, rfl,
    (build_ready_metadata ⟨[], ⟨[], [], [], none⟩⟩
      ⟨"pr-42", "app:1.0", "cred", "24h"⟩ 7 rfl rfl).1⟩

/-- C3: Destroy is idempotent — destroying an existing active
environment returns Destroyed, and a second Destroy of the same identity
returns NotFound as a normal result. -/
theorem destroy_idempotent (st : ServerState) (id : String)
    (env : Environment)
    (hlook : lookupEnv st id = some env)
    (hactive : env.status.isTerminal = false) :
    (Destroy st id).1 = DestroyResult.Destroyed ∧
    (Destroy (Destroy st id).2 id).1 = DestroyResult.NotFound := by
  have h1 : Destroy st id
      = (DestroyResult.Destroyed,
        { envs := (id, ⟨id, env.ttl, EnvStatus.Destroyed⟩) :: st.envs
          cluster :=
            { workloads := st.cluster.workloads.filter (fun w => !(w.name == id))
              routes := st.cluster.routes.filter (fun r => !(r == id))
              secrets := st.cluster.secrets.filter (fun s => !(s == id))
              cacheClaim := st.cluster.cacheClaim } }) := by
    unfold Destroy
    rw [hlook]
    simp [hactive]
  refine ⟨by rw [h1], ?_⟩
  rw [h1]
  rw [destroy_terminal_notFound _ id ⟨id, env.ttl, EnvStatus.Destroyed⟩
    (lookupEnv_cons_self _ _ _ _) rfl]

/-- Witness for C3 on the spec's `pr-123` example. -/
theorem destroy_idempotent_witness :
    (Destroy ⟨[("pr-123", ⟨"pr-123", "24h", EnvStatus.Ready⟩)],
        ⟨[⟨"pr-123", "app:1.0", []⟩], ["pr-123"], ["pr-123"], none⟩⟩ "pr-123").1
      = DestroyResult.Destroyed ∧
    (Destroy (Destroy ⟨[("pr-123", ⟨"pr-123", "24h", EnvStatus.Ready⟩)],
        ⟨[⟨"pr-123", "app:1.0", []⟩], ["pr-123"], ["pr-123"], none⟩⟩ "pr-123").2
      "pr-123").1 = DestroyResult.NotFound :=
  destroy_idempotent _ "pr-123" ⟨"pr-123", "24h", EnvStatus.Ready⟩ rfl rfl

theorem build_preserves_cacheClaim (st : ServerState) (req : BuildRequest)
    (now : Nat) (fail : Option BuildStep) :
    (Build st req now fail).2.cluster.cacheClaim = st.cluster.cacheClaim := by
  have hp : (provision st req now fail).2.cluster.cacheClaim
      = st.cluster.cacheClaim := by
    cases fail with
    | none => rfl
    | some step => cases step <;> rfl
  unfold Build
  cases hl : lookupEnv st req.identity with
  | none => exact hp
  | some env =>
    by_cases ht : env.status.isTerminal = true
    · simp only [ht, if_true]
      exact hp
    · simp [ht]

theorem destroy_frame (st : ServerState) (id : String) :
    ((Destroy st id).2.cluster.workloads
        = st.cluster.workloads.filter (fun w => !(w.name == id)) ∧
      (Destroy st id).2.cluster.routes
        = st.cluster.routes.filter (fun r => !(r == id)) ∧
      (Destroy st id).2.cluster.secrets
        = st.cluster.secrets.filter (fun s => !(s == id)) ∧
      (Destroy st id).2.cluster.cacheClaim = st.cluster.cacheClaim) ∨
    (Destroy st id).2 = st := by
  unfold Destroy
  cases hl : lookupEnv st id with
  | none => exact Or.inr rfl
  | some e =>
    by_cases ht : e.status.isTerminal = true
    · exact Or.inr (by simp [ht])
    · exact Or.inl (by simp [ht])

theorem destroy_preserves_cacheClaim (st : ServerState) (id : String) :
    (Destroy st id).2.cluster.cacheClaim = st.cluster.cacheClaim := by
  rcases destroy_frame st id with ⟨_, _, _, h⟩ | h
  · exact h
  · rw [h]

theorem runOps_preserves_cacheClaim : ∀ (ops : List Op) (st : ServerState),
    (runOps st ops).cluster.cacheClaim = st.cluster.cacheClaim := by
  intro ops
  induction ops with
  | nil => intro st; rfl
  | cons op ops ih =>
    intro st
    show (runOps (applyOp st op) ops).cluster.cacheClaim = _
    rw [ih (applyOp st op)]
    cases op with
    | build req now fail => exact build_preserves_cacheClaim st req now fail
    | destroy id => exact destroy_preserves_cacheClaim st id

/-- C4: across every sequence of Build and Destroy operations the shared
cache claim is unchanged; a Build never touches it, and a Destroy either
leaves the state untouched or removes exactly the identity's workload,
route and secret while keeping the cache claim. -/
theorem cache_claim_never_touched :
    (∀ (st : ServerState) (ops : List Op),
      (runOps st ops).cluster.cacheClaim = st.cluster.cacheClaim) ∧
    (∀ (st : ServerState) (req : BuildRequest) (now : Nat)
        (fail : Option BuildStep),
      (Build st req now fail).2.cluster.cacheClaim = st.cluster.cacheClaim) ∧
    ∀ (st : ServerState) (id : String),
      ((Destroy st id).2.cluster.workloads
          = st.cluster.workloads.filter (fun w => !(w.name == id)) ∧
        (Destroy st id).2.cluster.routes
          = st.cluster.routes.filter (fun r => !(r == id)) ∧
        (Destroy st id).2.cluster.secrets
          = st.cluster.secrets.filter (fun s => !(s == id)) ∧
        (Destroy st id).2.cluster.cacheClaim = st.cluster.cacheClaim) ∨
      (Destroy st id).2 = st :=
  ⟨fun st ops => runOps_preserves_cacheClaim ops st,
    build_preserves_cacheClaim,
    destroy_frame⟩
